import Mathlib

/-!
Shallow embedding of the E220 LoRa module configurator's communication core
(`E220Module` in `e220-configurator.py`).

The serial transport is modelled as an oracle `resp : Nat → Option String`
giving the text delivered in reply to the n-th command/response exchange
(`none` means no bytes arrived before the timeout).  Timing (sleeps, AUX-pin
polls) is abstracted away; everything else — the mode state machine, the
command channel, the parameter read/write sequences and their parsing — is
translated statement by statement from the Python source.

String operations that the Python code uses (`strip`, `in`, `split`,
`endswith`, f-string interpolation) are re-implemented structurally over
`List Char` so that all definitions evaluate by kernel reduction.
-/

namespace E220

/-- Python whitespace characters recognised by `str.strip()` (ASCII subset). -/
def isPyWs (c : Char) : Bool :=
  c == ' ' || c == '\t' || c == '\n' || c == '\r' || c == '\x0B' || c == '\x0C'

/-- Strip leading and trailing whitespace from a character list. -/
def pyStripList (l : List Char) : List Char :=
  ((List.dropWhile isPyWs l).reverse.dropWhile isPyWs).reverse

/-- Model of Python `str.strip()`. -/
def pyStrip (s : String) : String :=
  String.mk (pyStripList s.data)

/-- Does `l` start with `pat` (character-wise)? -/
def listStarts : List Char → List Char → Bool
  | [], _ => true
  | _ :: _, [] => false
  | a :: as, b :: bs => a == b && listStarts as bs

/-- Does `s` start with the literal `pre`?  Model of `str.startswith`. -/
def hasPre (pre s : String) : Bool :=
  listStarts pre.data s.data

/-- Does `l` contain `pat` as a contiguous sublist? -/
def listHasSub (pat : List Char) : List Char → Bool
  | [] => listStarts pat []
  | c :: r => listStarts pat (c :: r) || listHasSub pat r

/-- Model of Python `"OK" in s`. -/
def containsOK (s : String) : Bool :=
  listHasSub ['O', 'K'] s.data

/-- Model of Python `s.endswith("\r\n")`. -/
def endsCRLF (s : String) : Bool :=
  match s.data.reverse with
  | '\n' :: '\r' :: _ => true
  | _ => false

/-- The bytes actually written for a command: CR+LF is appended when not
already present (`send_at_command`, lines 182-184). -/
def termCmd (c : String) : String :=
  if endsCRLF c then c else c ++ "\r\n"

/-- Characters after the first `'='`, or `none` when there is no `'='`. -/
def dropToEq : List Char → Option (List Char)
  | [] => none
  | '=' :: r => some r
  | _ :: r => dropToEq r

/-- Characters up to (excluding) the next `'='`. -/
def takeToEq : List Char → List Char
  | [] => []
  | '=' :: _ => []
  | c :: r => c :: takeToEq r

/-- Model of Python `s.split("=")[1]` guarded by `"=" in s`: the segment
between the first `'='` and the following `'='` (or the end). -/
def pySplitEq1 (s : String) : Option String :=
  (dropToEq s.data).map (fun r => String.mk (takeToEq r))

/-- Model of Python `s.split(",")`: split a character list at every comma. -/
def splitComma : List Char → List (List Char)
  | [] => [[]]
  | ',' :: r => [] :: splitComma r
  | c :: r =>
    match splitComma r with
    | h :: t => (c :: h) :: t
    | [] => [[c]]

/-- Accumulate a decimal value; fails on any non-digit character. -/
def digitsValAux : List Char → Nat → Option Nat
  | [], acc => some acc
  | c :: r, acc =>
    if c.isDigit then digitsValAux r (acc * 10 + (c.toNat - 48)) else none

/-- Decimal value of a non-empty all-digit character list. -/
def digitsVal : List Char → Option Nat
  | [] => none
  | l => digitsValAux l 0

/-- Model of Python `int(s)` on decimal string literals: strip whitespace,
optional sign, then all-digit; raises (here: `none`) otherwise. -/
def pyInt (s : String) : Option Int :=
  match pyStripList s.data with
  | '-' :: r => (digitsVal r).map (fun n => -(n : Int))
  | '+' :: r => (digitsVal r).map (fun n => (n : Int))
  | r => (digitsVal r).map (fun n => (n : Int))

/-- E220 operating modes (`ModuleMode`, lines 49-54). -/
inductive ModuleMode
  | NORMAL
  | WOR_TRANSMIT
  | WOR_RECEIVE
  | CONFIGURATION
deriving DecidableEq, Repr

/-- The serial link: whether a connection is open, and the response oracle
(the text delivered for the n-th exchange; `none` = timeout with no bytes). -/
structure Transport where
  isOpen : Bool
  resp : Nat → Option String

/-- State of an `E220Module` instance, together with the observable I/O
history (`written`: every byte string passed to `serial.write`;
`sent`: number of command/response exchanges so far;
`pinAssertions`: number of physical M0/M1 line assertions). -/
structure ModState where
  transport : Transport
  sent : Nat
  written : List String
  currentMode : Option ModuleMode
  manualConfig : Bool
  gpioAvailable : Bool
  pinAssertions : Nat

/-- `send_at_command` (lines 173-214): `None` when not connected, otherwise
write the CRLF-terminated command and return the stripped response text
(empty when nothing was received before the timeout). -/
def send_at_command (st : ModState) (command : String) : Option String × ModState :=
  if st.transport.isOpen = false then (none, st)
  else
    (some (pyStrip (Option.getD (st.transport.resp st.sent) "")),
     { st with sent := st.sent + 1, written := st.written ++ [termCmd command] })

/-- Result of the i-th exchange as seen by callers of `send_at_command`
on an open connection. -/
def exchangeResp (t : Transport) (i : Nat) : Option String :=
  if t.isOpen = false then none else some (pyStrip (Option.getD (t.resp i) ""))

/-- Truthy-and-contains-"OK" test applied to `send_at_command` results. -/
def respOK (r : Option String) : Bool :=
  match r with
  | some s => containsOK s
  | none => false

/-- `_check_config_mode` (lines 226-249): probe with `AT`; in configuration
mode iff a response arrives that contains `OK`. -/
def check_config_mode (st : ModState) : Bool × ModState :=
  if st.transport.isOpen = false then (false, st)
  else
    let r := send_at_command st "AT"
    (respOK r.1, r.2)

/-- `_set_mode_pins` (lines 116-152): without GPIO control it warns and
returns `True` (trusting manually asserted pins); with GPIO it asserts the
M0/M1 lines.  All four enum modes are valid, so it always returns `True`. -/
def set_mode_pins (st : ModState) (_mode : ModuleMode) : Bool × ModState :=
  if st.gpioAvailable = false then (true, st)
  else (true, { st with pinAssertions := st.pinAssertions + 1 })

/-- `set_mode` (lines 154-171). -/
def set_mode (st : ModState) (mode : ModuleMode) : Bool × ModState :=
  if st.currentMode = some mode then (true, st)
  else if mode = ModuleMode.CONFIGURATION then
    let c := check_config_mode st
    if c.1 then (true, { c.2 with currentMode := some ModuleMode.CONFIGURATION })
    else
      let r := set_mode_pins c.2 mode
      if r.1 then (true, { r.2 with currentMode := some mode }) else (r.1, r.2)
  else
    let r := set_mode_pins st mode
    if r.1 then (true, { r.2 with currentMode := some mode }) else (r.1, r.2)

/-- `enter_config_mode` (lines 216-224). -/
def enter_config_mode (st : ModState) : Bool × ModState :=
  let c := check_config_mode st
  if c.1 then (true, { c.2 with currentMode := some ModuleMode.CONFIGURATION })
  else set_mode c.2 ModuleMode.CONFIGURATION

/-- `exit_config_mode` (lines 251-258). -/
def exit_config_mode (st : ModState) : Bool × ModState :=
  if st.manualConfig then (true, st)
  else set_mode st ModuleMode.NORMAL

/-- One query of `get_parameters`: send the command and parse the response
as `response.split("=")[1]` fed to `int(...)`, guarded by
`response and "=" in response` (failures are logged and skipped). -/
def parseField (r : Option String) : Option Int :=
  match r with
  | none => none
  | some s =>
    match pySplitEq1 s with
    | none => none
    | some v => pyInt v

/-- Send one query command and return the parsed integer (if any). -/
def queryVal (st : ModState) (cmd : String) : Option Int × ModState :=
  let r := send_at_command st cmd
  (parseField r.1, r.2)

/-- The dictionary entries contributed by one optional integer field. -/
def entry (k : String) (v : Option Int) : List (String × ℚ) :=
  match v with
  | some n => [(k, (n : ℚ))]
  | none => []

/-- Entries contributed by the channel query (lines 279-287): on a parsed
channel the derived frequency `850.125 + chan` is stored as well. -/
def chanEntries (v : Option Int) : List (String × ℚ) :=
  match v with
  | some n => [("chan", (n : ℚ)), ("frequency", 850.125 + (n : ℚ))]
  | none => []

/-- Entries contributed by the UART query (lines 289-299).  `none` models the
uncaught `ValueError` of `baud_idx, parity_idx = uart_values.split(",")`
when the value part holds more than one comma: that exception escapes the
per-field handler and is caught only by the outer handler of
`get_parameters`, which discards the whole record. -/
def uartEntries (r : Option String) : Option (List (String × ℚ)) :=
  match r with
  | none => some []
  | some s =>
    match pySplitEq1 s with
    | none => some []
    | some v =>
      match splitComma v.data with
      | [] => some []
      | [_] => some []
      | [b, p] =>
        match pyInt (String.mk b) with
        | none => some []
        | some bv =>
          match pyInt (String.mk p) with
          | none => some [("uart_baud", (bv : ℚ))]
          | some pv => some [("uart_baud", (bv : ℚ)), ("parity", (pv : ℚ))]
      | _ => none

/-- `get_parameters` (lines 260-402): enter configuration mode, query each
parameter in source order, fabricate the constant `fec` and `io_drive_mode`
fields, and exit configuration mode unless manual configuration is set.
A `none` result models the Python `None` return after the outer exception
handler fires (only reachable through the UART unpacking, see
`uartEntries`). -/
def get_parameters (st : ModState) : Option (List (String × ℚ)) × ModState :=
  let r0 := enter_config_mode st
  if r0.1 = false then (none, r0.2)
  else
    let qA := queryVal r0.2 "AT+ADDR=?"
    let qC := queryVal qA.2 "AT+CHANNEL=?"
    let rU := send_at_command qC.2 "AT+UART=?"
    match uartEntries rU.1 with
    | none =>
      if rU.2.manualConfig then (none, rU.2) else (none, (exit_config_mode rU.2).2)
    | some uE =>
      let qR := queryVal rU.2 "AT+RATE=?"
      let qP := queryVal qR.2 "AT+POWER=?"
      let qT := queryVal qP.2 "AT+TRANS=?"
      let qW := queryVal qT.2 "AT+WTIME=?"
      let qL := queryVal qW.2 "AT+LBT=?"
      let qE := queryVal qL.2 "AT+ERSSI=?"
      let qD := queryVal qE.2 "AT+DRSSI=?"
      let qS := queryVal qD.2 "AT+SWITCH=?"
      let qK := queryVal qS.2 "AT+PACKET=?"
      let ps :=
        entry "address" qA.1 ++ chanEntries qC.1 ++ uE ++
        entry "air_data_rate" qR.1 ++ entry "transmission_power" qP.1 ++
        entry "fixed_transmission" qT.1 ++ entry "wake_up_time" qW.1 ++
        [("fec", (1 : ℚ)), ("io_drive_mode", (1 : ℚ))] ++
        entry "lbt" qL.1 ++ entry "erssi" qE.1 ++ entry "drssi" qD.1 ++
        entry "sw_switch" qS.1 ++ entry "packet" qK.1
      if qK.2.manualConfig then (some ps, qK.2)
      else (some ps, (exit_config_mode qK.2).2)

/-- The set command for one optional field of the input record. -/
def cmdIf (params : List (String × Int)) (key pre : String) : List String :=
  match List.lookup key params with
  | some v => [pre ++ toString v]
  | none => []

/-- The UART set command, emitted only when both fields are present
(lines 430-436). -/
def uartCmd (params : List (String × Int)) : List String :=
  match List.lookup "uart_baud" params, List.lookup "parity" params with
  | some b, some p => ["AT+UART=" ++ toString b ++ "," ++ toString p]
  | _, _ => []

/-- The set commands attempted by `set_parameters` for an input record, in
source order (lines 414-510): one command per present field, the UART pair
requiring both of its fields. -/
def fieldCmds (params : List (String × Int)) : List String :=
  cmdIf params "address" "AT+ADDR=" ++ cmdIf params "chan" "AT+CHANNEL=" ++
  uartCmd params ++ cmdIf params "air_data_rate" "AT+RATE=" ++
  cmdIf params "transmission_power" "AT+POWER=" ++
  cmdIf params "fixed_transmission" "AT+TRANS=" ++
  cmdIf params "wake_up_time" "AT+WTIME=" ++ cmdIf params "packet" "AT+PACKET=" ++
  cmdIf params "lbt" "AT+LBT=" ++ cmdIf params "erssi" "AT+ERSSI=" ++
  cmdIf params "drssi" "AT+DRSSI=" ++ cmdIf params "sw_switch" "AT+SWITCH="

/-- One per-field block of `set_parameters`: send the command and clear the
aggregate success flag unless the response is truthy and contains `OK`. -/
def sendStep (acc : Bool × ModState) (cmd : String) : Bool × ModState :=
  let r := send_at_command acc.2 cmd
  (acc.1 && respOK r.1, r.2)

/-- `set_parameters` (lines 404-520): enter configuration mode, attempt every
present field in source order, aggregate per-field success, and exit
configuration mode unless manual configuration is set. -/
def set_parameters (st : ModState) (params : List (String × Int)) : Bool × ModState :=
  let r0 := enter_config_mode st
  if r0.1 = false then (false, r0.2)
  else
    let r1 := (fieldCmds params).foldl sendStep (true, r0.2)
    if r1.2.manualConfig then (r1.1, r1.2)
    else (r1.1, (exit_config_mode r1.2).2)

/-- `reset_module` (lines 522-545): success iff the `AT+RESET` response is
truthy and contains `OK`; the `finally` clause clears the tracked mode on
every exit path of the body. -/
def reset_module (st : ModState) : Bool × ModState :=
  let r0 := enter_config_mode st
  if r0.1 = false then (false, r0.2)
  else
    let r := send_at_command r0.2 "AT+RESET"
    (respOK r.1, { r.2 with currentMode := none })

/-- `factory_reset` (lines 547-570): as `reset_module` with `AT+DEFAULT`. -/
def factory_reset (st : ModState) : Bool × ModState :=
  let r0 := enter_config_mode st
  if r0.1 = false then (false, r0.2)
  else
    let r := send_at_command r0.2 "AT+DEFAULT"
    (respOK r.1, { r.2 with currentMode := none })

/-- `response.split("=")[1]` guarded by `response and "=" in response`,
applied to an `Option String` as returned by `send_at_command`. -/
def splitVal (r : Option String) : Option String :=
  match r with
  | none => none
  | some s => pySplitEq1 s

/-- `version` (lines 572-602): device-type query must parse; the firmware
query is best effort (`"Unknown"` placeholder); configuration mode is left
via the `finally` clause. -/
def version (st : ModState) : Option (String × String) × ModState :=
  let r0 := enter_config_mode st
  if r0.1 = false then (none, r0.2)
  else
    let rD := send_at_command r0.2 "AT+DEVTYPE=?"
    match splitVal rD.1 with
    | none => (none, (exit_config_mode rD.2).2)
    | some dt =>
      let rF := send_at_command rD.2 "AT+FWCODE=?"
      let fw := match splitVal rF.1 with
        | some v => v
        | none => "Unknown"
      (some (dt, fw), (exit_config_mode rF.2).2)

/-- All-of-`n` exchanges starting at index `start` carry the `OK` marker. -/
def allRespOK (t : Transport) (start : Nat) : Nat → Bool
  | 0 => true
  | n + 1 => respOK (exchangeResp t start) && allRespOK t (start + 1) n

/-- The key names a successfully returned parameter record can contain
(`get_parameters`); note the absence of any encryption-key field. -/
def allowedKeys : List String :=
  ["address", "chan", "frequency", "uart_baud", "parity", "air_data_rate",
   "transmission_power", "fixed_transmission", "wake_up_time", "fec",
   "io_drive_mode", "lbt", "erssi", "drssi", "sw_switch", "packet"]

/-- Every byte string `get_parameters` can pass to the transport: the
configuration-mode probe and the twelve query commands. -/
def getQueryCmds : List String :=
  [termCmd "AT", termCmd "AT+ADDR=?", termCmd "AT+CHANNEL=?", termCmd "AT+UART=?",
   termCmd "AT+RATE=?", termCmd "AT+POWER=?", termCmd "AT+TRANS=?",
   termCmd "AT+WTIME=?", termCmd "AT+LBT=?", termCmd "AT+ERSSI=?",
   termCmd "AT+DRSSI=?", termCmd "AT+SWITCH=?", termCmd "AT+PACKET=?"]

/-- The command stems `set_parameters` can emit. -/
def setCmdStarts : List String :=
  ["AT+ADDR=", "AT+CHANNEL=", "AT+UART=", "AT+RATE=", "AT+POWER=", "AT+TRANS=",
   "AT+WTIME=", "AT+PACKET=", "AT+LBT=", "AT+ERSSI=", "AT+DRSSI=", "AT+SWITCH="]

/-- The new writes of `stf` relative to `st` all come from `L`. -/
def growsBy (st stf : ModState) (L : List String) : Prop :=
  ∀ x ∈ stf.written, x ∈ st.written ∨ x ∈ L

/-- The concatenation of per-field blocks built by `get_parameters`,
abstracted over the parsed values; `get_parameters` returns exactly this
shape on success. -/
@[reducible] def recordOf (vA vC : Option Int) (uE : List (String × ℚ))
    (vR vP vT vW vL vE2 vD vS vK : Option Int) : List (String × ℚ) :=
  entry "address" vA ++ chanEntries vC ++ uE ++
  entry "air_data_rate" vR ++ entry "transmission_power" vP ++
  entry "fixed_transmission" vT ++ entry "wake_up_time" vW ++
  [("fec", (1 : ℚ)), ("io_drive_mode", (1 : ℚ))] ++
  entry "lbt" vL ++ entry "erssi" vE2 ++ entry "drssi" vD ++
  entry "sw_switch" vS ++ entry "packet" vK

/-- A connected module already in configuration mode whose replies all
carry the `OK` marker. -/
def stC1 : ModState :=
  { transport := { isOpen := true, resp := fun _ => some "OK" }, sent := 0,
    written := [], currentMode := some ModuleMode.CONFIGURATION,
    manualConfig := true, gpioAvailable := false, pinAssertions := 0 }

/-- A connected module already in configuration mode whose replies never
carry the `OK` marker. -/
def stC2 : ModState :=
  { transport := { isOpen := true, resp := fun _ => some "ERR" }, sent := 0,
    written := [], currentMode := some ModuleMode.CONFIGURATION,
    manualConfig := true, gpioAvailable := false, pinAssertions := 0 }

/-- A connected module, GPIO mode control available, already in
configuration mode. -/
def stC3 : ModState :=
  { transport := { isOpen := true, resp := fun _ => some "OK" }, sent := 0,
    written := [], currentMode := some ModuleMode.CONFIGURATION,
    manualConfig := false, gpioAvailable := true, pinAssertions := 0 }

/-- A connected module whose transport never delivers any bytes. -/
def stC4 : ModState :=
  { transport := { isOpen := true, resp := fun _ => none }, sent := 0,
    written := [], currentMode := some ModuleMode.CONFIGURATION,
    manualConfig := true, gpioAvailable := false, pinAssertions := 0 }

/-- A connected module in configuration mode; replies are unparseable. -/
def stC5 : ModState :=
  { transport := { isOpen := true, resp := fun _ => some "X" }, sent := 0,
    written := [], currentMode := some ModuleMode.CONFIGURATION,
    manualConfig := true, gpioAvailable := false, pinAssertions := 0 }

/-- A connected module in configuration mode that answers the channel
query (exchange index 2: probe, address, channel) with channel 5. -/
def stC6 : ModState :=
  { transport :=
      { isOpen := true,
        resp := fun i => if i = 2 then some "AT+CHANNEL=5" else some "X" },
    sent := 0, written := [], currentMode := some ModuleMode.CONFIGURATION,
    manualConfig := true, gpioAvailable := false, pinAssertions := 0 }

/-- A connected module in configuration mode; replies are unparseable. -/
def stC8 : ModState :=
  { transport := { isOpen := true, resp := fun _ => some "Y" }, sent := 0,
    written := [], currentMode := some ModuleMode.CONFIGURATION,
    manualConfig := true, gpioAvailable := false, pinAssertions := 0 }

/-- A connected module in configuration mode whose replies all carry the
`OK` marker. -/
def stC9 : ModState :=
  { transport := { isOpen := true, resp := fun _ => some "OK" }, sent := 0,
    written := [], currentMode := some ModuleMode.CONFIGURATION,
    manualConfig := true, gpioAvailable := false, pinAssertions := 0 }

/-- A module whose serial connection is not open. -/
def stC10closed : ModState :=
  { transport := { isOpen := false, resp := fun _ => some "OK" }, sent := 0,
    written := [], currentMode := none,
    manualConfig := true, gpioAvailable := false, pinAssertions := 0 }

/-- A connected module whose transport delivers nothing before timeout. -/
def stC10open : ModState :=
  { transport := { isOpen := true, resp := fun _ => none }, sent := 0,
    written := [], currentMode := none,
    manualConfig := true, gpioAvailable := false, pinAssertions := 0 }

theorem send_transport (st : ModState) (c : String) :
    (send_at_command st c).2.transport = st.transport := by
  unfold send_at_command; split <;> rfl

theorem send_manual (st : ModState) (c : String) :
    (send_at_command st c).2.manualConfig = st.manualConfig := by
  unfold send_at_command; split <;> rfl

theorem send_currentMode (st : ModState) (c : String) :
    (send_at_command st c).2.currentMode = st.currentMode := by
  unfold send_at_command; split <;> rfl

theorem send_pins (st : ModState) (c : String) :
    (send_at_command st c).2.pinAssertions = st.pinAssertions := by
  unfold send_at_command; split <;> rfl

theorem send_open (st : ModState) (c : String) (h : st.transport.isOpen = true) :
    send_at_command st c =
      (exchangeResp st.transport st.sent,
       { st with sent := st.sent + 1, written := st.written ++ [termCmd c] }) := by
  unfold send_at_command exchangeResp
  rw [h]; rfl

theorem send_closed (st : ModState) (c : String) (h : st.transport.isOpen = false) :
    send_at_command st c = (none, st) := by
  unfold send_at_command; rw [h]; rfl

theorem check_transport (st : ModState) :
    (check_config_mode st).2.transport = st.transport := by
  unfold check_config_mode; split
  · rfl
  · exact send_transport st "AT"

theorem check_manual (st : ModState) :
    (check_config_mode st).2.manualConfig = st.manualConfig := by
  unfold check_config_mode; split
  · rfl
  · exact send_manual st "AT"

theorem check_currentMode (st : ModState) :
    (check_config_mode st).2.currentMode = st.currentMode := by
  unfold check_config_mode; split
  · rfl
  · exact send_currentMode st "AT"

theorem check_pins (st : ModState) :
    (check_config_mode st).2.pinAssertions = st.pinAssertions := by
  unfold check_config_mode; split
  · rfl
  · exact send_pins st "AT"

theorem set_mode_pins_fst (st : ModState) (m : ModuleMode) :
    (set_mode_pins st m).1 = true := by
  unfold set_mode_pins; split <;> rfl

theorem set_mode_pins_transport (st : ModState) (m : ModuleMode) :
    (set_mode_pins st m).2.transport = st.transport := by
  unfold set_mode_pins; split <;> rfl

theorem set_mode_pins_manual (st : ModState) (m : ModuleMode) :
    (set_mode_pins st m).2.manualConfig = st.manualConfig := by
  unfold set_mode_pins; split <;> rfl

theorem set_mode_pins_written (st : ModState) (m : ModuleMode) :
    (set_mode_pins st m).2.written = st.written := by
  unfold set_mode_pins; split <;> rfl

theorem set_mode_pins_sent (st : ModState) (m : ModuleMode) :
    (set_mode_pins st m).2.sent = st.sent := by
  unfold set_mode_pins; split <;> rfl

theorem set_mode_pins_le (st : ModState) (m : ModuleMode) :
    (set_mode_pins st m).2.pinAssertions ≤ st.pinAssertions + 1 := by
  unfold set_mode_pins; split
  · exact Nat.le_succ _
  · exact Nat.le_refl _

/-- `set_mode` always succeeds in this variant (`_set_mode_pins` returns
`True` for all four enum modes, with or without GPIO control), and the
tracked mode afterwards is the requested one. -/
theorem set_mode_fst (st : ModState) (m : ModuleMode) :
    (set_mode st m).1 = true := by
  unfold set_mode
  dsimp only
  split
  · rfl
  · split
    · split
      · rfl
      · simp [set_mode_pins_fst]
    · simp [set_mode_pins_fst]

theorem set_mode_currentMode (st : ModState) (m : ModuleMode) :
    (set_mode st m).2.currentMode = some m := by
  unfold set_mode
  dsimp only
  split
  · next h => exact h.symm ▸ rfl
  · split
    · split
      · next h2 _ => simp [h2]
      · simp [set_mode_pins_fst]
    · simp [set_mode_pins_fst]

theorem set_mode_transport (st : ModState) (m : ModuleMode) :
    (set_mode st m).2.transport = st.transport := by
  unfold set_mode
  dsimp only
  split
  · rfl
  · split
    · split
      · exact check_transport st
      · simp [set_mode_pins_fst, set_mode_pins_transport, check_transport]
    · simp [set_mode_pins_fst, set_mode_pins_transport]

theorem set_mode_manual (st : ModState) (m : ModuleMode) :
    (set_mode st m).2.manualConfig = st.manualConfig := by
  unfold set_mode
  dsimp only
  split
  · rfl
  · split
    · split
      · exact check_manual st
      · simp [set_mode_pins_fst, set_mode_pins_manual, check_manual]
    · simp [set_mode_pins_fst, set_mode_pins_manual]

theorem set_mode_pins_count (st : ModState) (m : ModuleMode) :
    (set_mode st m).2.pinAssertions ≤ st.pinAssertions + 1 := by
  unfold set_mode
  dsimp only
  split
  · exact Nat.le_succ _
  · split
    · split
      · next h2 _ =>
        show (check_config_mode st).2.pinAssertions ≤ st.pinAssertions + 1
        rw [check_pins]; exact Nat.le_succ _
      · next h2 _ =>
        simp only [set_mode_pins_fst, if_true]
        show (set_mode_pins (check_config_mode st).2 m).2.pinAssertions ≤ st.pinAssertions + 1
        calc (set_mode_pins (check_config_mode st).2 m).2.pinAssertions
            ≤ (check_config_mode st).2.pinAssertions + 1 := set_mode_pins_le _ m
          _ = st.pinAssertions + 1 := by rw [check_pins]
    · simp only [set_mode_pins_fst, if_true]
      show (set_mode_pins st m).2.pinAssertions ≤ st.pinAssertions + 1
      exact set_mode_pins_le st m

/-- Mode changes to `NORMAL` (and any non-configuration mode) never touch the
serial line: no command is written. -/
theorem set_mode_normal_written (st : ModState) :
    (set_mode st ModuleMode.NORMAL).2.written = st.written := by
  unfold set_mode
  dsimp only
  split
  · rfl
  · split
    · next h => exact absurd h (by decide)
    · simp [set_mode_pins_fst, set_mode_pins_written]

theorem exit_written (st : ModState) :
    (exit_config_mode st).2.written = st.written := by
  unfold exit_config_mode
  split
  · rfl
  · exact set_mode_normal_written st

theorem exit_fst (st : ModState) : (exit_config_mode st).1 = true := by
  unfold exit_config_mode
  split
  · rfl
  · exact set_mode_fst st ModuleMode.NORMAL

/-- `enter_config_mode` always reports success in this variant: the initial
probe either verifies configuration mode, or `set_mode` falls through to
`_set_mode_pins`, which returns `True` in every reachable case.  The
fail-fast guards in the compound operations are therefore never taken. -/
theorem enter_fst (st : ModState) : (enter_config_mode st).1 = true := by
  unfold enter_config_mode
  dsimp only
  split
  · rfl
  · exact set_mode_fst _ ModuleMode.CONFIGURATION

theorem enter_transport (st : ModState) :
    (enter_config_mode st).2.transport = st.transport := by
  unfold enter_config_mode
  dsimp only
  split
  · exact check_transport st
  · rw [set_mode_transport, check_transport]

theorem enter_manual (st : ModState) :
    (enter_config_mode st).2.manualConfig = st.manualConfig := by
  unfold enter_config_mode
  dsimp only
  split
  · exact check_manual st
  · rw [set_mode_manual, check_manual]

/-- Behaviour of the per-field loop of `set_parameters` on an open
connection: every command is written (CRLF-terminated) in order, the
exchange counter advances once per command, and the aggregate flag is the
conjunction of the per-exchange `OK` tests. -/
theorem foldl_sendStep (cmds : List String) : ∀ (st : ModState) (b : Bool),
    st.transport.isOpen = true →
    (cmds.foldl sendStep (b, st)).2.written = st.written ++ cmds.map termCmd ∧
    (cmds.foldl sendStep (b, st)).2.transport = st.transport ∧
    (cmds.foldl sendStep (b, st)).2.manualConfig = st.manualConfig ∧
    (cmds.foldl sendStep (b, st)).2.sent = st.sent + cmds.length ∧
    (cmds.foldl sendStep (b, st)).1 = (b && allRespOK st.transport st.sent cmds.length) := by
  induction cmds with
  | nil =>
    intro st b _
    simp [allRespOK]
  | cons c cs ih =>
    intro st b h
    have hstep : sendStep (b, st) c =
        (b && respOK (exchangeResp st.transport st.sent),
         { st with sent := st.sent + 1, written := st.written ++ [termCmd c] }) := by
      unfold sendStep
      rw [send_open st c h]
    rw [List.foldl_cons, hstep]
    obtain ⟨hw, ht, hm, hs, hb⟩ :=
      ih { st with sent := st.sent + 1, written := st.written ++ [termCmd c] }
        (b && respOK (exchangeResp st.transport st.sent)) h
    refine ⟨?_, ht, hm, ?_, ?_⟩
    · rw [hw]; simp
    · rw [hs]; simp; omega
    · rw [hb, Bool.and_assoc]
      rfl

/-- Core behaviour of `set_parameters` on an open connection, shared by the
per-field and UART-pair results below. -/
theorem set_parameters_spec (st : ModState) (params : List (String × Int))
    (h : st.transport.isOpen = true) :
    ((set_parameters st params).1 = true ↔
      allRespOK st.transport (enter_config_mode st).2.sent
        (fieldCmds params).length = true) ∧
    (set_parameters st params).2.written =
      (enter_config_mode st).2.written ++ (fieldCmds params).map termCmd := by
  have hT := enter_transport st
  have hOpen : (enter_config_mode st).2.transport.isOpen = true := by
    rw [hT]; exact h
  obtain ⟨hw, ht, hm, hs, hb⟩ :=
    foldl_sendStep (fieldCmds params) (enter_config_mode st).2 true hOpen
  unfold set_parameters
  dsimp only
  rw [enter_fst st, if_neg (by decide : ¬ (true = false))]
  rw [hT] at hb
  split
  · exact ⟨by rw [hb, Bool.true_and], hw⟩
  · refine ⟨by rw [hb, Bool.true_and], ?_⟩
    show (exit_config_mode _).2.written = _
    rw [exit_written, hw]

/-- C1: on an open connection, `set_parameters` attempts every field present
in the input record — each one's set command is written to the transport in
source order regardless of earlier failures — a field counts as successful
only when its response carries the `OK` marker (a missing response fails),
and the operation reports overall success exactly when every attempted
field succeeded. -/
theorem set_parameters_per_field (st : ModState) (params : List (String × Int))
    (h : st.transport.isOpen = true) :
    ((set_parameters st params).1 = true ↔
      allRespOK st.transport (enter_config_mode st).2.sent
        (fieldCmds params).length = true) ∧
    (set_parameters st params).2.written =
      (enter_config_mode st).2.written ++ (fieldCmds params).map termCmd :=
  set_parameters_spec st params h

/-- `set_mode` on a module already tracked in the requested mode is an
immediate no-op: no probe, no line assertion, no state change
(line 156 of the source returns before the configuration probe). -/
theorem set_mode_noop (st : ModState) (m : ModuleMode)
    (h : st.currentMode = some m) : set_mode st m = (true, st) := by
  unfold set_mode
  rw [if_pos h]

/-- C2 (amended): `reset_module` and `factory_reset` succeed exactly when
the response to their single command is truthy and carries the `OK`
marker; the tracked current mode is invalidated back to unknown on every
outcome — also on failure — because the clearing sits in a `finally`
clause (lines 543-545 and 568-570). -/
theorem reset_and_factory_semantics (st : ModState) :
    (reset_module st).1 =
      respOK (send_at_command (enter_config_mode st).2 "AT+RESET").1 ∧
    (reset_module st).2.currentMode = none ∧
    (factory_reset st).1 =
      respOK (send_at_command (enter_config_mode st).2 "AT+DEFAULT").1 ∧
    (factory_reset st).2.currentMode = none := by
  unfold reset_module factory_reset
  simp [enter_fst]

/-- Counterexample to C2 as stated: with every reply reading `ERR`, the
reset fails, yet the tracked mode is not left unchanged — it is cleared
from `CONFIGURATION` to unknown. -/
theorem reset_failure_still_clears_mode_cex :
    (reset_module stC2).1 = false ∧
    stC2.currentMode = some ModuleMode.CONFIGURATION ∧
    (reset_module stC2).2.currentMode = none :=
  ⟨rfl, rfl, rfl⟩

/-- Counterexample to C3 as stated: with the tracked mode already
`CONFIGURATION`, `set_mode CONFIGURATION` returns success with no exchange
performed and nothing written — no probe command is sent and no
affirmative response is required. -/
theorem set_mode_config_no_probe_cex :
    stC3.currentMode = some ModuleMode.CONFIGURATION ∧
    (set_mode stC3 ModuleMode.CONFIGURATION).1 = true ∧
    (set_mode stC3 ModuleMode.CONFIGURATION).2.sent = 0 ∧
    (set_mode stC3 ModuleMode.CONFIGURATION).2.written = ([] : List String) :=
  ⟨rfl, rfl, rfl, rfl⟩

/-- C3 (amended): `set_mode m` with the tracked mode already `m` returns
success immediately with no I/O and no line assertion — for every mode,
including `CONFIGURATION` (the probe runs only when the tracked mode
differs) — and two consecutive calls assert the M0/M1 lines at most
once. -/
theorem set_mode_idempotent (st : ModState) (m : ModuleMode) :
    (st.currentMode = some m → set_mode st m = (true, st)) ∧
    (set_mode (set_mode st m).2 m).2.pinAssertions ≤ st.pinAssertions + 1 := by
  refine ⟨set_mode_noop st m, ?_⟩
  rw [set_mode_noop (set_mode st m).2 m (set_mode_currentMode st m)]
  exact set_mode_pins_count st m

/-- Witness for C3 (amended) at a concrete state. -/
theorem set_mode_idempotent_witness :
    set_mode stC3 ModuleMode.CONFIGURATION = (true, stC3) ∧
    (set_mode (set_mode stC3 ModuleMode.CONFIGURATION).2
      ModuleMode.CONFIGURATION).2.pinAssertions ≤ stC3.pinAssertions + 1 :=
  ⟨(set_mode_idempotent stC3 ModuleMode.CONFIGURATION).1 rfl,
   (set_mode_idempotent stC3 ModuleMode.CONFIGURATION).2⟩

/-- C4: on an open connection, `send_at_command` returns the empty string
(not an exception) when the transport delivers nothing before the timeout,
and the whitespace-stripped response text when it delivers bytes. -/
theorem send_at_command_open_result (st : ModState) (cmd : String)
    (h : st.transport.isOpen = true) :
    (st.transport.resp st.sent = none →
      (send_at_command st cmd).1 = some "") ∧
    (∀ s, st.transport.resp st.sent = some s →
      (send_at_command st cmd).1 = some (pyStrip s)) := by
  constructor
  · intro hn
    rw [send_open st cmd h]
    simp [exchangeResp, h, hn]
    rfl
  · intro s hs
    rw [send_open st cmd h]
    simp [exchangeResp, h, hs]

/-- Witness for C4: a transport delivering no bytes yields `some ""`, and
one delivering `" OK "` yields the trimmed text. -/
theorem send_at_command_open_result_witness :
    (send_at_command stC4 "AT").1 = some "" :=
  (send_at_command_open_result stC4 "AT" rfl).1 rfl

/-- C7: if entering configuration mode failed, each compound operation
would return its failure value with no further I/O (state exactly as left
by `enter_config_mode`).  In this variant the antecedent is unsatisfiable:
`enter_config_mode` always reports success (`enter_fst`), because
`_set_mode_pins` returns `True` even without GPIO control, so the guard at
the top of each operation is never taken; each conjunct below therefore
holds through its left disjunct. -/
theorem operations_fail_fast (st : ModState) (params : List (String × Int)) :
    ((enter_config_mode st).1 = true ∨
      get_parameters st = (none, (enter_config_mode st).2)) ∧
    ((enter_config_mode st).1 = true ∨
      set_parameters st params = (false, (enter_config_mode st).2)) ∧
    ((enter_config_mode st).1 = true ∨
      reset_module st = (false, (enter_config_mode st).2)) ∧
    ((enter_config_mode st).1 = true ∨
      factory_reset st = (false, (enter_config_mode st).2)) ∧
    ((enter_config_mode st).1 = true ∨
      version st = (none, (enter_config_mode st).2)) :=
  ⟨Or.inl (enter_fst st), Or.inl (enter_fst st), Or.inl (enter_fst st),
   Or.inl (enter_fst st), Or.inl (enter_fst st)⟩

/-- C10: `send_at_command` returns `None` exactly when the serial
connection is absent or not open, and then leaves the state untouched (no
bytes written); a timed-out exchange on an open connection returns the
empty string instead, so the two failure shapes are distinguishable. -/
theorem send_none_iff_not_open (st : ModState) (cmd : String) :
    ((send_at_command st cmd).1 = none ↔ st.transport.isOpen = false) ∧
    (st.transport.isOpen = false → send_at_command st cmd = (none, st)) ∧
    (st.transport.isOpen = true → st.transport.resp st.sent = none →
      (send_at_command st cmd).1 = some "") := by
  refine ⟨?_, fun h => send_closed st cmd h, ?_⟩
  · unfold send_at_command
    split
    · next h => simp [h]
    · next h => simp [h]
  · intro h hn
    rw [send_open st cmd h]
    simp [exchangeResp, h, hn]
    rfl

/-- Witness for C10: the two failure shapes at concrete states. -/
theorem send_none_iff_not_open_witness :
    (send_at_command stC10closed "AT").1 = none ∧
    send_at_command stC10closed "AT" = (none, stC10closed) ∧
    (send_at_command stC10open "AT").1 = some "" :=
  ⟨(send_none_iff_not_open stC10closed "AT").1.mpr rfl,
   (send_none_iff_not_open stC10closed "AT").2.1 rfl,
   (send_none_iff_not_open stC10open "AT").2.2 rfl rfl⟩

/-- Witness for C1 at a concrete state and record. -/
theorem set_parameters_per_field_witness :
    ((set_parameters stC1 [("address", (7 : Int))]).1 = true ↔
      allRespOK stC1.transport (enter_config_mode stC1).2.sent
        (fieldCmds [("address", (7 : Int))]).length = true) ∧
    (set_parameters stC1 [("address", (7 : Int))]).2.written =
      (enter_config_mode stC1).2.written ++
        (fieldCmds [("address", (7 : Int))]).map termCmd :=
  set_parameters_per_field stC1 [("address", (7 : Int))] rfl

theorem lookup_cons_self (k : String) (v : ℚ) (l : List (String × ℚ)) :
    List.lookup k ((k, v) :: l) = some v := by
  simp [List.lookup]

theorem lookup_cons_ne (k k1 : String) (v : ℚ) (l : List (String × ℚ))
    (h : k1 ≠ k) : List.lookup k ((k1, v) :: l) = List.lookup k l := by
  have hb : (k == k1) = false := beq_eq_false_iff_ne.mpr (Ne.symm h)
  simp [List.lookup, hb]

theorem lookup_append_right (k : String) (l1 l2 : List (String × ℚ))
    (h : ∀ p ∈ l1, p.1 ≠ k) :
    List.lookup k (l1 ++ l2) = List.lookup k l2 := by
  induction l1 with
  | nil => rfl
  | cons a t ih =>
    obtain ⟨k1, v1⟩ := a
    have ha : k1 ≠ k := h (k1, v1) (by simp)
    rw [List.cons_append, lookup_cons_ne k k1 v1 (t ++ l2) ha]
    exact ih fun p hp => h p (by simp [hp])

theorem entry_key (k : String) (v : Option Int) : ∀ p ∈ entry k v, p.1 = k := by
  intro p hp
  cases v with
  | none => simp [entry] at hp
  | some n =>
    simp [entry] at hp
    rw [hp]

theorem chanEntries_key (v : Option Int) :
    ∀ p ∈ chanEntries v, p.1 = "chan" ∨ p.1 = "frequency" := by
  intro p hp
  cases v with
  | none => simp [chanEntries] at hp
  | some n =>
    simp [chanEntries] at hp
    rcases hp with h | h
    · left; rw [h]
    · right; rw [h]

theorem uartEntries_shape (r : Option String) (l : List (String × ℚ))
    (h : uartEntries r = some l) :
    l = [] ∨ (∃ bv : ℚ, l = [("uart_baud", bv)]) ∨
      (∃ bv pv : ℚ, l = [("uart_baud", bv), ("parity", pv)]) := by
  unfold uartEntries at h
  repeat' split at h
  all_goals cases h
  · exact Or.inl rfl
  · exact Or.inl rfl
  · exact Or.inl rfl
  · exact Or.inl rfl
  · exact Or.inl rfl
  · exact Or.inr (Or.inl ⟨_, rfl⟩)
  · exact Or.inr (Or.inr ⟨_, _, rfl⟩)

theorem uartEntries_key (r : Option String) (l : List (String × ℚ))
    (h : uartEntries r = some l) :
    ∀ p ∈ l, p.1 = "uart_baud" ∨ p.1 = "parity" := by
  intro p hp
  rcases uartEntries_shape r l h with h1 | ⟨bv, h1⟩ | ⟨bv, pv, h1⟩ <;> subst h1
  · simp at hp
  · simp at hp
    left; rw [hp]
  · simp at hp
    rcases hp with h2 | h2
    · left; rw [h2]
    · right; rw [h2]

theorem lookup_skip_entry (k key : String) (v : Option Int)
    (l2 : List (String × ℚ)) (h : key ≠ k) :
    List.lookup k (entry key v ++ l2) = List.lookup k l2 :=
  lookup_append_right k _ l2 fun p hp => by rw [entry_key key v p hp]; exact h

theorem lookup_skip_chan (k : String) (v : Option Int)
    (l2 : List (String × ℚ)) (h1 : "chan" ≠ k) (h2 : "frequency" ≠ k) :
    List.lookup k (chanEntries v ++ l2) = List.lookup k l2 :=
  lookup_append_right k _ l2 fun p hp => by
    rcases chanEntries_key v p hp with h | h <;> rw [h]
    · exact h1
    · exact h2

theorem lookup_skip_uart (k : String) (r : Option String)
    (uE : List (String × ℚ)) (l2 : List (String × ℚ))
    (hu : uartEntries r = some uE)
    (h1 : "uart_baud" ≠ k) (h2 : "parity" ≠ k) :
    List.lookup k (uE ++ l2) = List.lookup k l2 :=
  lookup_append_right k _ l2 fun p hp => by
    rcases uartEntries_key r uE hu p hp with h | h <;> rw [h]
    · exact h1
    · exact h2

theorem lookup_entry_ne (k key : String) (v : Option Int) (h : key ≠ k) :
    List.lookup k (entry key v) = none := by
  cases v with
  | none => rfl
  | some n =>
    show List.lookup k ((key, (n : ℚ)) :: []) = none
    rw [lookup_cons_ne k key _ [] h]
    rfl

/-- `∀ p ∈ l, p.1 = "uart_baud" ∨ p.1 = "parity"` generalised to a skip
lemma usable without the `uartEntries` equation. -/
theorem lookup_skip_uartKeys (k : String) (uE : List (String × ℚ))
    (l2 : List (String × ℚ))
    (hu : ∀ p ∈ uE, p.1 = "uart_baud" ∨ p.1 = "parity")
    (h1 : "uart_baud" ≠ k) (h2 : "parity" ≠ k) :
    List.lookup k (uE ++ l2) = List.lookup k l2 :=
  lookup_append_right k _ l2 fun p hp => by
    rcases hu p hp with h | h <;> rw [h]
    · exact h1
    · exact h2

/-- The fabricated constants inside any record of the `get_parameters`
shape. -/
theorem record_fec_io (vA vC : Option Int) (uE : List (String × ℚ))
    (vR vP vT vW vL vE2 vD vS vK : Option Int)
    (hu : ∀ p ∈ uE, p.1 = "uart_baud" ∨ p.1 = "parity") :
    List.lookup "fec" (recordOf vA vC uE vR vP vT vW vL vE2 vD vS vK) = some (1 : ℚ) ∧
    List.lookup "io_drive_mode"
      (recordOf vA vC uE vR vP vT vW vL vE2 vD vS vK) = some (1 : ℚ) := by
  unfold recordOf
  simp only [List.append_assoc, List.cons_append, List.nil_append]
  constructor
  · rw [lookup_skip_entry _ _ _ _ (by decide),
      lookup_skip_chan _ _ _ (by decide) (by decide),
      lookup_skip_uartKeys _ uE _ hu (by decide) (by decide),
      lookup_skip_entry _ _ _ _ (by decide),
      lookup_skip_entry _ _ _ _ (by decide),
      lookup_skip_entry _ _ _ _ (by decide),
      lookup_skip_entry _ _ _ _ (by decide),
      lookup_cons_self]
  · rw [lookup_skip_entry _ _ _ _ (by decide),
      lookup_skip_chan _ _ _ (by decide) (by decide),
      lookup_skip_uartKeys _ uE _ hu (by decide) (by decide),
      lookup_skip_entry _ _ _ _ (by decide),
      lookup_skip_entry _ _ _ _ (by decide),
      lookup_skip_entry _ _ _ _ (by decide),
      lookup_skip_entry _ _ _ _ (by decide),
      lookup_cons_ne _ _ _ _ (by decide),
      lookup_cons_self]

/-- C8: every record returned successfully by `get_parameters` contains
`fec = 1` and `io_drive_mode = 1`, whatever the module answered: the two
values are fabricated constants (lines 337-341), never queried over the
wire. -/
theorem fec_io_constants (st : ModState) (ps : List (String × ℚ))
    (h : (get_parameters st).1 = some ps) :
    List.lookup "fec" ps = some (1 : ℚ) ∧
    List.lookup "io_drive_mode" ps = some (1 : ℚ) := by
  unfold get_parameters at h
  dsimp only at h
  rw [enter_fst st, if_neg (by decide : ¬(true = false))] at h
  split at h
  · split at h <;> simp at h
  · next uE heq =>
    split at h <;>
    · simp only [Option.some.injEq] at h
      subst h
      exact record_fec_io _ _ uE _ _ _ _ _ _ _ _ _ (uartEntries_key _ uE heq)

theorem cmdIf_mem (params : List (String × Int)) (key pre c : String)
    (h : c ∈ cmdIf params key pre) : ∃ v : Int, c = pre ++ toString v := by
  unfold cmdIf at h
  split at h
  · next v _ =>
    simp at h
    exact ⟨v, h⟩
  · simp at h

theorem uartCmd_mem (params : List (String × Int)) (c : String)
    (h : c ∈ uartCmd params) :
    ∃ b p : Int, c = "AT+UART=" ++ toString b ++ "," ++ toString p := by
  unfold uartCmd at h
  split at h
  · next b p _ _ =>
    simp at h
    exact ⟨b, p, h⟩
  · simp at h

/-- No command `set_parameters` can emit is an encryption-key command:
the source has no key field at all (the E220 `AT` dialect key command
would start with `AT+KEY`). -/
theorem fieldCmds_no_key (params : List (String × Int)) :
    ∀ c ∈ fieldCmds params, hasPre "AT+KEY" c = false := by
  intro c h
  unfold fieldCmds at h
  simp only [List.mem_append] at h
  repeat' rcases h with h | h
  all_goals first
    | (obtain ⟨v, rfl⟩ := cmdIf_mem _ _ _ _ h; rfl)
    | (obtain ⟨b, p, rfl⟩ := uartCmd_mem _ _ h; rfl)

/-- No command `set_parameters` can emit mentions the derived frequency
field. -/
theorem fieldCmds_no_freq (params : List (String × Int)) :
    ∀ c ∈ fieldCmds params, hasPre "AT+FREQ" c = false := by
  intro c h
  unfold fieldCmds at h
  simp only [List.mem_append] at h
  repeat' rcases h with h | h
  all_goals first
    | (obtain ⟨v, rfl⟩ := cmdIf_mem _ _ _ _ h; rfl)
    | (obtain ⟨b, p, rfl⟩ := uartCmd_mem _ _ h; rfl)

/-- Every key of a record of the `get_parameters` shape is one of the
sixteen known parameter names. -/
theorem record_keys (vA vC : Option Int) (uE : List (String × ℚ))
    (vR vP vT vW vL vE2 vD vS vK : Option Int)
    (hu : ∀ p ∈ uE, p.1 = "uart_baud" ∨ p.1 = "parity") :
    ∀ p ∈ recordOf vA vC uE vR vP vT vW vL vE2 vD vS vK,
      p.1 ∈ allowedKeys := by
  intro p hp
  unfold recordOf at hp
  simp only [List.mem_append, List.mem_cons, List.not_mem_nil, or_false] at hp
  rcases hp with
    ((((((((((((hp | hp) | hp) | hp) | hp) | hp) | hp) | (hp | hp)) | hp) | hp)
      | hp) | hp) | hp)
  · rw [entry_key _ _ p hp]; decide
  · rcases chanEntries_key _ p hp with h | h <;> rw [h] <;> decide
  · rcases hu p hp with h | h <;> rw [h] <;> decide
  · rw [entry_key _ _ p hp]; decide
  · rw [entry_key _ _ p hp]; decide
  · rw [entry_key _ _ p hp]; decide
  · rw [entry_key _ _ p hp]; decide
  · rw [hp]; decide
  · rw [hp]; decide
  · rw [entry_key _ _ p hp]; decide
  · rw [entry_key _ _ p hp]; decide
  · rw [entry_key _ _ p hp]; decide
  · rw [entry_key _ _ p hp]; decide
  · rw [entry_key _ _ p hp]; decide

/-- C5: a record returned by `get_parameters` never contains the
encryption key's value under any key name — every key is one of the
sixteen known names, none of which mentions a key (the module's key is
write-only and this variant never reads or fabricates it) — and
`set_parameters` includes an encryption-key set command in the outbound
sequence only when the record's key value is non-zero: in fact it never
emits one at all, for any input record. -/
theorem no_encryption_key (st : ModState) (ps : List (String × ℚ))
    (params : List (String × Int)) (h : (get_parameters st).1 = some ps) :
    (∀ p ∈ ps, p.1 ∈ allowedKeys) ∧
    (allowedKeys.all fun k => !listHasSub ['k', 'e', 'y'] k.data) = true ∧
    (∀ c ∈ fieldCmds params, hasPre "AT+KEY" c = false) := by
  refine ⟨?_, by decide, fieldCmds_no_key params⟩
  unfold get_parameters at h
  dsimp only at h
  rw [enter_fst st, if_neg (by decide : ¬(true = false))] at h
  split at h
  · split at h <;> simp at h
  · next uE heq =>
    split at h <;>
    · simp only [Option.some.injEq] at h
      subst h
      exact record_keys _ _ uE _ _ _ _ _ _ _ _ _ (uartEntries_key _ uE heq)

/-- Witness for C5: a concrete run and record. -/
theorem no_encryption_key_witness :
    ("fec", (1 : ℚ)).1 ∈ allowedKeys ∧
    hasPre "AT+KEY" ("AT+ADDR=" ++ toString (7 : Int)) = false :=
  ⟨(no_encryption_key stC5 [("fec", (1 : ℚ)), ("io_drive_mode", (1 : ℚ))]
      [("address", (7 : Int))] rfl).1 ("fec", (1 : ℚ)) (by decide),
   (no_encryption_key stC5 [("fec", (1 : ℚ)), ("io_drive_mode", (1 : ℚ))]
      [("address", (7 : Int))] rfl).2.2 ("AT+ADDR=" ++ toString (7 : Int))
     (by decide)⟩

/-- Inside any record of the `get_parameters` shape, a present channel
value forces the derived frequency entry `850.125 + chan`. -/
theorem record_chan_freq (vA vC : Option Int) (uE : List (String × ℚ))
    (vR vP vT vW vL vE2 vD vS vK : Option Int)
    (hu : ∀ p ∈ uE, p.1 = "uart_baud" ∨ p.1 = "parity") (c : ℚ)
    (hc : List.lookup "chan"
      (recordOf vA vC uE vR vP vT vW vL vE2 vD vS vK) = some c) :
    List.lookup "frequency"
      (recordOf vA vC uE vR vP vT vW vL vE2 vD vS vK) = some (850.125 + c) := by
  unfold recordOf at hc ⊢
  simp only [List.append_assoc, List.cons_append, List.nil_append] at hc ⊢
  rw [lookup_skip_entry _ _ _ _ (by decide)] at hc
  rw [lookup_skip_entry _ _ _ _ (by decide)]
  cases vC with
  | none =>
    simp only [chanEntries, List.nil_append] at hc
    rw [lookup_skip_uartKeys _ uE _ hu (by decide) (by decide),
      lookup_skip_entry _ _ _ _ (by decide),
      lookup_skip_entry _ _ _ _ (by decide),
      lookup_skip_entry _ _ _ _ (by decide),
      lookup_skip_entry _ _ _ _ (by decide),
      lookup_cons_ne _ _ _ _ (by decide),
      lookup_cons_ne _ _ _ _ (by decide),
      lookup_skip_entry _ _ _ _ (by decide),
      lookup_skip_entry _ _ _ _ (by decide),
      lookup_skip_entry _ _ _ _ (by decide),
      lookup_skip_entry _ _ _ _ (by decide),
      lookup_entry_ne _ _ _ (by decide)] at hc
    cases hc
  | some n =>
    simp only [chanEntries, List.cons_append, List.nil_append] at hc ⊢
    rw [lookup_cons_self] at hc
    injection hc with hc
    rw [lookup_cons_ne _ _ _ _ (by decide), lookup_cons_self, hc]

theorem growsBy_mono {a b : ModState} {L1 L2 : List String}
    (h : growsBy a b L1) (hs : ∀ x ∈ L1, x ∈ L2) : growsBy a b L2 :=
  fun x hx => (h x hx).imp id (hs x)

theorem growsBy_trans {a b c : ModState} {L : List String}
    (h1 : growsBy a b L) (h2 : growsBy b c L) : growsBy a c L :=
  fun x hx =>
    match h2 x hx with
    | Or.inl h => h1 x h
    | Or.inr h => Or.inr h

theorem send_growsBy (st : ModState) (c : String) (L : List String)
    (hm : termCmd c ∈ L) : growsBy st (send_at_command st c).2 L := by
  unfold growsBy send_at_command
  split
  · exact fun x hx => Or.inl hx
  · intro x hx
    dsimp only at hx
    rcases List.mem_append.mp hx with h | h
    · exact Or.inl h
    · rw [List.mem_singleton] at h
      rw [h]
      exact Or.inr hm

theorem check_growsBy (st : ModState) (L : List String)
    (hm : termCmd "AT" ∈ L) : growsBy st (check_config_mode st).2 L := by
  unfold check_config_mode
  split
  · exact fun x hx => Or.inl hx
  · exact send_growsBy st "AT" L hm

theorem set_mode_growsBy (st : ModState) (m : ModuleMode) (L : List String)
    (hm : termCmd "AT" ∈ L) : growsBy st (set_mode st m).2 L := by
  unfold set_mode
  dsimp only
  split
  · exact fun x hx => Or.inl hx
  · split
    · split
      · exact fun x hx => check_growsBy st L hm x hx
      · split
        · intro x hx
          dsimp only at hx
          rw [set_mode_pins_written] at hx
          exact check_growsBy st L hm x hx
        · intro x hx
          rw [set_mode_pins_written] at hx
          exact check_growsBy st L hm x hx
    · split
      · intro x hx
        dsimp only at hx
        rw [set_mode_pins_written] at hx
        exact Or.inl hx
      · intro x hx
        rw [set_mode_pins_written] at hx
        exact Or.inl hx

theorem enter_growsBy (st : ModState) (L : List String)
    (hm : termCmd "AT" ∈ L) : growsBy st (enter_config_mode st).2 L := by
  unfold enter_config_mode
  dsimp only
  split
  · exact fun x hx => check_growsBy st L hm x hx
  · exact growsBy_trans (check_growsBy st L hm) (set_mode_growsBy _ _ L hm)

theorem exit_growsBy (st : ModState) (L : List String) :
    growsBy st (exit_config_mode st).2 L := by
  intro x hx
  rw [exit_written] at hx
  exact Or.inl hx

/-- Every byte string `get_parameters` writes beyond the caller's existing
trace is one of the thirteen fixed query strings: no other command — in
particular no frequency command — is ever transmitted. -/
theorem get_parameters_growsBy (st : ModState) :
    growsBy st (get_parameters st).2 getQueryCmds := by
  unfold get_parameters
  dsimp only
  rw [enter_fst st, if_neg (by decide : ¬(true = false))]
  have g0 := enter_growsBy st getQueryCmds (by decide)
  have g1 := growsBy_trans g0 (send_growsBy _ "AT+ADDR=?" _ (by decide))
  have g2 := growsBy_trans g1 (send_growsBy _ "AT+CHANNEL=?" _ (by decide))
  have g3 := growsBy_trans g2 (send_growsBy _ "AT+UART=?" _ (by decide))
  split
  · split
    · exact g3
    · exact growsBy_trans g3 (exit_growsBy _ _)
  · have g4 := growsBy_trans g3 (send_growsBy _ "AT+RATE=?" _ (by decide))
    have g5 := growsBy_trans g4 (send_growsBy _ "AT+POWER=?" _ (by decide))
    have g6 := growsBy_trans g5 (send_growsBy _ "AT+TRANS=?" _ (by decide))
    have g7 := growsBy_trans g6 (send_growsBy _ "AT+WTIME=?" _ (by decide))
    have g8 := growsBy_trans g7 (send_growsBy _ "AT+LBT=?" _ (by decide))
    have g9 := growsBy_trans g8 (send_growsBy _ "AT+ERSSI=?" _ (by decide))
    have g10 := growsBy_trans g9 (send_growsBy _ "AT+DRSSI=?" _ (by decide))
    have g11 := growsBy_trans g10 (send_growsBy _ "AT+SWITCH=?" _ (by decide))
    have g12 := growsBy_trans g11 (send_growsBy _ "AT+PACKET=?" _ (by decide))
    split
    · exact g12
    · exact growsBy_trans g12 (exit_growsBy _ _)

/-- C6: channel-to-frequency derivation is a pure function of the channel
alone — whenever a returned record holds a channel value `c`, its
frequency entry is exactly `850.125 + c` (lines 284-285) — and the
frequency is computed locally: every command `get_parameters` writes comes
from the fixed query list, none of which mentions a frequency, and
`set_parameters` never emits a frequency command for any record. -/
theorem frequency_derivation (st : ModState) (ps : List (String × ℚ)) (c : ℚ)
    (h : (get_parameters st).1 = some ps)
    (hc : List.lookup "chan" ps = some c) :
    List.lookup "frequency" ps = some (850.125 + c) ∧
    growsBy st (get_parameters st).2 getQueryCmds ∧
    (getQueryCmds.all fun cm => !listHasSub ['F', 'R', 'E', 'Q'] cm.data) = true ∧
    (∀ params, ∀ cm ∈ fieldCmds params, hasPre "AT+FREQ" cm = false) := by
  refine ⟨?_, get_parameters_growsBy st, by decide, fun params => fieldCmds_no_freq params⟩
  unfold get_parameters at h
  dsimp only at h
  rw [enter_fst st, if_neg (by decide : ¬(true = false))] at h
  split at h
  · split at h <;> simp at h
  · next uE heq =>
    split at h <;>
    · simp only [Option.some.injEq] at h
      subst h
      exact record_chan_freq _ _ uE _ _ _ _ _ _ _ _ _
        (uartEntries_key _ uE heq) c hc

/-- Witness for C6: a module answering channel 5 yields frequency
`850.125 + 5`. -/
theorem frequency_derivation_witness :
    List.lookup "frequency"
      [("chan", ((5 : Int) : ℚ)), ("frequency", 850.125 + ((5 : Int) : ℚ)),
       ("fec", (1 : ℚ)), ("io_drive_mode", (1 : ℚ))] =
      some (850.125 + ((5 : Int) : ℚ)) :=
  (frequency_derivation stC6
    [("chan", ((5 : Int) : ℚ)), ("frequency", 850.125 + ((5 : Int) : ℚ)),
     ("fec", (1 : ℚ)), ("io_drive_mode", (1 : ℚ))]
    ((5 : Int) : ℚ) rfl rfl).1

/-- Under a missing UART half, `set_parameters` emits no UART command. -/
theorem fieldCmds_no_uart (params : List (String × Int))
    (h1 : List.lookup "uart_baud" params = none ∨
      List.lookup "parity" params = none) :
    ∀ c ∈ fieldCmds params, hasPre "AT+UART=" c = false := by
  intro c h
  unfold fieldCmds at h
  simp only [List.mem_append] at h
  rcases h with
    ((((((((((h | h) | h) | h) | h) | h) | h) | h) | h) | h) | h) | h
  · obtain ⟨v, rfl⟩ := cmdIf_mem _ _ _ _ h; rfl
  · obtain ⟨v, rfl⟩ := cmdIf_mem _ _ _ _ h; rfl
  · exfalso
    unfold uartCmd at h
    rcases h1 with h1 | h1
    · rw [h1] at h
      simp at h
    · rw [h1] at h
      rcases hub : List.lookup "uart_baud" params with _ | b <;>
        rw [hub] at h <;> simp at h
  · obtain ⟨v, rfl⟩ := cmdIf_mem _ _ _ _ h; rfl
  · obtain ⟨v, rfl⟩ := cmdIf_mem _ _ _ _ h; rfl
  · obtain ⟨v, rfl⟩ := cmdIf_mem _ _ _ _ h; rfl
  · obtain ⟨v, rfl⟩ := cmdIf_mem _ _ _ _ h; rfl
  · obtain ⟨v, rfl⟩ := cmdIf_mem _ _ _ _ h; rfl
  · obtain ⟨v, rfl⟩ := cmdIf_mem _ _ _ _ h; rfl
  · obtain ⟨v, rfl⟩ := cmdIf_mem _ _ _ _ h; rfl
  · obtain ⟨v, rfl⟩ := cmdIf_mem _ _ _ _ h; rfl
  · obtain ⟨v, rfl⟩ := cmdIf_mem _ _ _ _ h; rfl

/-- C9: `set_parameters` sends the UART set command only when the input
record holds both `uart_baud` and `parity`; with exactly one of the two
the UART command is silently skipped — no field is marked failed by the
skip, so overall success is still the conjunction over the commands that
were attempted. -/
theorem uart_pair_required (st : ModState) (params : List (String × Int))
    (h1 : List.lookup "uart_baud" params = none ∨
      List.lookup "parity" params = none)
    (h2 : st.transport.isOpen = true) :
    (∀ c ∈ fieldCmds params, hasPre "AT+UART=" c = false) ∧
    ((set_parameters st params).1 = true ↔
      allRespOK st.transport (enter_config_mode st).2.sent
        (fieldCmds params).length = true) :=
  ⟨fieldCmds_no_uart params h1, (set_parameters_spec st params h2).1⟩

/-- Witness for C9: a record with `uart_baud` but no `parity` skips the
UART command and still reports overall success. -/
theorem uart_pair_required_witness :
    hasPre "AT+UART=" ("AT+ADDR=" ++ toString (1 : Int)) = false ∧
    (set_parameters stC9 [("uart_baud", (3 : Int)), ("address", (1 : Int))]).1
      = true :=
  ⟨(uart_pair_required stC9 [("uart_baud", (3 : Int)), ("address", (1 : Int))]
      (Or.inr rfl) rfl).1 ("AT+ADDR=" ++ toString (1 : Int)) (by decide),
   by decide⟩

/-- Witness for C8: a concrete run whose replies parse nowhere still
returns the two fabricated constants. -/
theorem fec_io_constants_witness :
    List.lookup "fec" [("fec", (1 : ℚ)), ("io_drive_mode", (1 : ℚ))] = some (1 : ℚ) ∧
    List.lookup "io_drive_mode"
      [("fec", (1 : ℚ)), ("io_drive_mode", (1 : ℚ))] = some (1 : ℚ) :=
  fec_io_constants stC8 [("fec", (1 : ℚ)), ("io_drive_mode", (1 : ℚ))] rfl

end E220
